import Mathlib

/-!
Verification of the orktrack scheduling / readiness / completion-matching core.

Shallow embedding of the relevant source functions:
  - `src/services/garmin_service.py` `GarminService.get_today_readiness`
    (score calculation, lines 590-621; directive flags, lines 623-638);
  - `src/backend/routers/ai.py` `pin_workout_plan` (lines 1178-1351),
    `auto_match_activities` (lines 1528-1613);
  - `src/backend/routers/workouts.py` `adjust_plan_for_readiness` (lines 620-715);
  - `src/database/db.py` `DatabaseManager.save_workout_plan` (593-621),
    `save_scheduled_workout` (666-702), `complete_workout` (446-465),
    `complete_scheduled_workout` (738-770).

Python integers and the biometric values are modelled as `Int` / `Nat`;
Python dates as `Int` days counted from an epoch that falls on a Monday,
so that Python's `date.weekday()` (Monday = 0) is `d % 7`.
Python float factors are modelled as exact rationals; all the concrete
values proved about are far from binary-rounding boundaries, and `int()`
on the nonnegative quantities involved is the rational floor.
-/

/-- HRV status as used by the readiness code: the snapshot's
`hrv_status` starts as the string `"Unknown"` and may be replaced by the
telemetry value; the directive code only tests whether the lowercased
string contains `"unbalanced"`, which over the data model's categorical
values {balanced, unbalanced, unknown} holds exactly for `unbalanced`. -/
inductive HrvStatus
  | balanced
  | unbalanced
  | unknown
deriving DecidableEq, Repr

/-- The independently optional biometric inputs of
`GarminService.get_today_readiness` at the point where the score is
computed (src/services/garmin_service.py:590-621): `body_battery`
(the spec's energy-reserve), `sleep_score` (sleep quality),
`hrv_status`, `resting_hr`, `stress_level`.  Each numeric field is
`none` when the telemetry did not provide it. -/
structure BiometricInputs where
  body_battery : Option Int
  sleep_score : Option Int
  hrv_status : HrvStatus
  resting_hr : Option Int
  stress_level : Option Int
deriving DecidableEq, Repr

/-- Lines 594-603: the body-battery contribution to the running score
(`if bb >= 70: +15 elif bb >= 50: +5 elif bb < 30: -20 elif bb < 50: -10`). -/
def scoreAfterBodyBattery (score : Int) : Option Int → Int
  | none => score
  | some bb =>
      if bb ≥ 70 then score + 15
      else if bb ≥ 50 then score + 5
      else if bb < 30 then score - 20
      else if bb < 50 then score - 10
      else score

/-- Lines 605-612: the sleep-score contribution
(`if ss >= 80: +10 elif ss >= 60: +5 elif ss < 40: -15`). -/
def scoreAfterSleep (score : Int) : Option Int → Int
  | none => score
  | some ss =>
      if ss ≥ 80 then score + 10
      else if ss ≥ 60 then score + 5
      else if ss < 40 then score - 15
      else score

/-- Lines 614-619: the stress contribution
(`if stress < 25: +5 elif stress > 60: -10`). -/
def scoreAfterStress (score : Int) : Option Int → Int
  | none => score
  | some st =>
      if st < 25 then score + 5
      else if st > 60 then score - 10
      else score

/-- Lines 590-621 of src/services/garmin_service.py: start from the base
score 70, fold in each present signal in the source's order, then clamp
with `max(0, min(100, score))`. -/
def readinessScoreCalc (inp : BiometricInputs) : Int :=
  let score := (70 : Int)
  let score := scoreAfterBodyBattery score inp.body_battery
  let score := scoreAfterSleep score inp.sleep_score
  let score := scoreAfterStress score inp.stress_level
  max 0 (min 100 score)

/-- The derived readiness fields produced by `get_today_readiness`:
the score, the two directive flags and the reason string
(`adjustment_reason`, `None` unless a flag was set). -/
structure ReadinessResult where
  readiness_score : Int
  should_rest : Bool
  should_reduce_intensity : Bool
  adjustment_reason : Option String
deriving DecidableEq, Repr

/-- Lines 623-638 of src/services/garmin_service.py: the autoregulation
rules, an if / elif / elif chain run after the score is computed.
The f-string reason messages are kept as fixed strings; only their
presence matters to the properties below. -/
def evaluateReadiness (inp : BiometricInputs) : ReadinessResult :=
  let score := readinessScoreCalc inp
  let bbRest : Bool :=
    match inp.body_battery with
    | some bb => bb < 30
    | none => false
  let ssRest : Bool :=
    match inp.sleep_score with
    | some ss => ss < 40
    | none => false
  if bbRest || ssRest then
    { readiness_score := score, should_rest := true, should_reduce_intensity := false,
      adjustment_reason := some "REST REQUIRED: Body Battery, Sleep Score" }
  else if inp.hrv_status = HrvStatus.unbalanced then
    { readiness_score := score, should_rest := false, should_reduce_intensity := true,
      adjustment_reason := some "REDUCE INTENSITY: HRV Status is unbalanced" }
  else if score < 50 then
    { readiness_score := score, should_rest := false, should_reduce_intensity := true,
      adjustment_reason := some "REDUCE INTENSITY: Readiness Score" }
  else
    { readiness_score := score, should_rest := false, should_reduce_intensity := false,
      adjustment_reason := none }

/-- The categorical directive of the spec, read off the two flags the
code sets: `rest` dominates, then `reduce`, else `proceed`. -/
inductive Directive
  | proceed
  | reduce
  | rest
deriving DecidableEq, Repr

/-- Directive carried by a `ReadinessResult`. -/
def directiveOf (r : ReadinessResult) : Directive :=
  if r.should_rest then Directive.rest
  else if r.should_reduce_intensity then Directive.reduce
  else Directive.proceed

/-- The snapshot with every biometric input absent. -/
def allAbsent : BiometricInputs :=
  { body_battery := none, sleep_score := none, hrv_status := HrvStatus.unknown,
    resting_hr := none, stress_level := none }

/-- Modelled from the spec's words (scoring deltas for energy-reserve),
for comparison with the source's `scoreAfterBodyBattery`. -/
def specDeltaEnergy : Option Int → Int
  | none => 0
  | some e => if e ≥ 70 then 15 else if e ≥ 50 then 5 else if e < 30 then -20 else -10

/-- Modelled from the spec's words (scoring deltas for sleep quality). -/
def specDeltaSleep : Option Int → Int
  | none => 0
  | some s => if s ≥ 80 then 10 else if s ≥ 60 then 5 else if s < 40 then -15 else 0

/-- Modelled from the spec's words (scoring deltas for stress). -/
def specDeltaStress : Option Int → Int
  | none => 0
  | some s => if s < 25 then 5 else if s > 60 then -10 else 0

/-- Modelled from the spec's words: baseline 70 plus the per-signal
deltas, clamped to [0, 100]. -/
def specScore (inp : BiometricInputs) : Int :=
  max 0 (min 100
    (70 + specDeltaEnergy inp.body_battery + specDeltaSleep inp.sleep_score
        + specDeltaStress inp.stress_level))

/-- Modelled from the spec's words: the directive decided in strict
priority order, first match wins. -/
def specDirective (inp : BiometricInputs) : Directive :=
  if (match inp.body_battery with | some bb => bb < 30 | none => false)
     || (match inp.sleep_score with | some ss => ss < 40 | none => false) then
    Directive.rest
  else if inp.hrv_status = HrvStatus.unbalanced then Directive.reduce
  else if readinessScoreCalc inp < 50 then Directive.reduce
  else Directive.proceed

/-- Each elif chain adds exactly the spec's energy delta. -/
lemma scoreAfterBodyBattery_eq (s : Int) (bb : Option Int) :
    scoreAfterBodyBattery s bb = s + specDeltaEnergy bb := by
  rcases bb with _ | bb
  · simp [scoreAfterBodyBattery, specDeltaEnergy]
  · simp only [scoreAfterBodyBattery, specDeltaEnergy]
    split_ifs <;> omega

/-- Each elif chain adds exactly the spec's sleep delta. -/
lemma scoreAfterSleep_eq (s : Int) (ss : Option Int) :
    scoreAfterSleep s ss = s + specDeltaSleep ss := by
  rcases ss with _ | ss
  · simp [scoreAfterSleep, specDeltaSleep]
  · simp only [scoreAfterSleep, specDeltaSleep]
    split_ifs <;> omega

/-- Each elif chain adds exactly the spec's stress delta. -/
lemma scoreAfterStress_eq (s : Int) (st : Option Int) :
    scoreAfterStress s st = s + specDeltaStress st := by
  rcases st with _ | st
  · simp [scoreAfterStress, specDeltaStress]
  · simp only [scoreAfterStress, specDeltaStress]
    split_ifs <;> omega

/-- C1: over every combination of independently optional biometric
inputs, the (total, hence never-failing) evaluator computes exactly
baseline 70 plus the spec's per-signal deltas, clamped to [0, 100];
with all inputs absent the score is exactly 70 and the directive is
`proceed`. -/
theorem C1_readiness_score_matches_spec :
    (∀ inp : BiometricInputs, readinessScoreCalc inp = specScore inp)
    ∧ (∀ inp : BiometricInputs,
        0 ≤ readinessScoreCalc inp ∧ readinessScoreCalc inp ≤ 100)
    ∧ (evaluateReadiness allAbsent).readiness_score = 70
    ∧ directiveOf (evaluateReadiness allAbsent) = Directive.proceed := by
  have hcalc : ∀ inp : BiometricInputs, readinessScoreCalc inp = specScore inp := by
    intro inp
    simp only [readinessScoreCalc, specScore, scoreAfterBodyBattery_eq,
      scoreAfterSleep_eq, scoreAfterStress_eq]
  refine ⟨hcalc, ?_, by decide, by decide⟩
  intro inp
  rw [hcalc]
  unfold specScore
  constructor
  · exact le_max_left _ _
  · exact max_le (by norm_num) (min_le_left _ _)

/-- C2: the directive is decided in the claimed strict priority order
(first match wins), the reason string is populated exactly when the
directive is not `proceed`, and energy-reserve 20 with everything else
absent yields `rest`. -/
theorem C2_directive_priority_and_reason :
    (∀ inp : BiometricInputs,
      directiveOf (evaluateReadiness inp) = specDirective inp
      ∧ ((evaluateReadiness inp).adjustment_reason = none
          ↔ directiveOf (evaluateReadiness inp) = Directive.proceed))
    ∧ directiveOf (evaluateReadiness
        { body_battery := some 20, sleep_score := none, hrv_status := HrvStatus.unknown,
          resting_hr := none, stress_level := none }) = Directive.rest := by
  refine ⟨?_, by decide⟩
  intro inp
  rcases inp with ⟨bb, ss, hrv, rhr, st⟩
  constructor
  · simp only [evaluateReadiness, specDirective, directiveOf]
    split_ifs <;> simp_all
  · simp only [evaluateReadiness, directiveOf]
    split_ifs <;> simp_all

/-! ### Dates and the plan materializer (src/backend/routers/ai.py, `pin_workout_plan`) -/

/-- Python's `date.weekday()`: Monday = 0 ... Sunday = 6.  Dates are
`Int` days counted from an epoch that falls on a Monday, so the weekday
is the (always nonnegative) remainder mod 7. -/
def pyWeekday (d : Int) : Int := d % 7

/-- The backward-alignment loop of src/backend/routers/ai.py lines
1208-1210 and 1280-1282 (`while start_date.weekday() != 0:
start_date -= timedelta(days=1)`), with enough fuel for the at most six
iterations it can take. -/
def alignLoop : Nat → Int → Int
  | 0, d => d
  | n + 1, d => if pyWeekday d = 0 then d else alignLoop n (d - 1)

/-- The Monday of `d`'s week, as computed by the source's loop. -/
def mondayOf (d : Int) : Int := alignLoop 7 d

/-- With enough fuel the alignment loop lands on `d - d % 7`. -/
lemma alignLoop_eq (n : Nat) : ∀ d : Int, d % 7 < n → alignLoop n d = d - d % 7 := by
  induction n with
  | zero => intro d h; exact absurd h (by omega)
  | succ n ih =>
      intro d h
      rw [alignLoop]
      split_ifs with h0
      · simp only [pyWeekday] at h0
        omega
      · simp only [pyWeekday] at h0
        rw [ih (d - 1) (by omega)]
        omega

/-- The loop lands on `d - d % 7`: the Monday of the week, at most six
days back. -/
lemma mondayOf_eq (d : Int) : mondayOf d = d - d % 7 :=
  alignLoop_eq 7 d (by omega)

/-- The normalized date is a Monday, lies at most six days before the
anchor, and never after it. -/
lemma mondayOf_spec (d : Int) :
    pyWeekday (mondayOf d) = 0 ∧ mondayOf d ≤ d ∧ d < mondayOf d + 7 := by
  rw [mondayOf_eq]
  have h0 : 0 ≤ d % 7 := Int.emod_nonneg d (by norm_num)
  have h7 : d % 7 < 7 := Int.emod_lt_of_pos d (by norm_num)
  refine ⟨?_, by omega, by omega⟩
  simp only [pyWeekday]
  omega

/-- One day-labeled workout entry of a plan document, with the fields
the materializer reads (src/backend/routers/ai.py lines 1284-1337).
`day` is `none` when the document omits the label; the code then uses
`workout.get("day", "Monday")`. -/
structure WorkoutEntry where
  day : Option String
  title : String
  workout_type : String
  duration_minutes : Option Nat
  intensity : String
deriving DecidableEq, Repr

/-- The `days_map` dict of src/backend/routers/ai.py lines 1286-1289. -/
def days_map : String → Option Nat
  | "Monday" => some 0
  | "Tuesday" => some 1
  | "Wednesday" => some 2
  | "Thursday" => some 3
  | "Friday" => some 4
  | "Saturday" => some 5
  | "Sunday" => some 6
  | _ => none

/-- The recognized weekday names, in the order of the list the month
branch indexes into (lines 1254-1255). -/
def weekdayNames : List String :=
  ["Monday", "Tuesday", "Wednesday", "Thursday", "Friday", "Saturday", "Sunday"]

/-- `list.index` with the surrounding `try/except ValueError` of lines
1252-1257: position of the first occurrence, `none` when absent. -/
def indexFrom : List String → String → Nat → Option Nat
  | [], _, _ => none
  | x :: xs, s, i => if x = s then some i else indexFrom xs s (i + 1)

/-- Week branch (lines 1284-1291): `days_map.get(workout.get("day",
"Monday"), 0)`. -/
def dayOffsetWeek (day : Option String) : Nat :=
  (days_map (day.getD "Monday")).getD 0

/-- Month branch (lines 1250-1258): `[...].index(day_name)` with
`except ValueError: days_ahead = 0`, on `workout.get("day", "Monday")`. -/
def dayOffsetMonth (day : Option String) : Nat :=
  (indexFrom weekdayNames (day.getD "Monday") 0).getD 0

/-- The scheduled dates per entry for a single-week plan: the anchor is
normalized to Monday once at lines 1208-1210 and (a no-op) again at
lines 1280-1282, then each entry lands at the week start plus its
offset. -/
def pin_week_schedule (anchor : Int) (flat_workouts : List WorkoutEntry) :
    List (Int × WorkoutEntry) :=
  let start_date := mondayOf anchor
  let week_start := mondayOf start_date
  flat_workouts.map (fun w => (week_start + (dayOffsetWeek w.day : Int), w))

/-- The scheduled dates for a multi-week plan (lines 1237-1264):
`current_date` starts at the anchor and advances by 7 per week; each
week's Monday is found by the same backward alignment. -/
def pin_month_schedule (current : Int) (weeks : List (List WorkoutEntry)) :
    List (Int × WorkoutEntry) :=
  match weeks with
  | [] => []
  | ws :: more =>
      let week_start := mondayOf current
      ws.map (fun w => (week_start + (dayOffsetMonth w.day : Int), w))
        ++ pin_month_schedule (current + 7) more

/-- Every recognized label maps to an offset below 7; unrecognized
labels map to nothing. -/
lemma days_map_le (s : String) (k : Nat) (h : days_map s = some k) : k ≤ 6 := by
  unfold days_map at h
  split at h <;> simp_all <;> omega

/-- Week offsets always lie in 0..6. -/
lemma dayOffsetWeek_le (day : Option String) : dayOffsetWeek day ≤ 6 := by
  unfold dayOffsetWeek
  cases h : days_map (day.getD "Monday") with
  | none => simp
  | some k => simpa using days_map_le _ _ h

/-- Aligning an already-aligned date is a no-op (the week branch aligns
at lines 1208-1210 and again at 1280-1282). -/
lemma mondayOf_idem (d : Int) : mondayOf (mondayOf d) = mondayOf d := by
  rw [mondayOf_eq, mondayOf_eq]
  omega

/-- A string outside the seven weekday names is absent from `days_map`. -/
lemma days_map_none (s : String) (hs : s ∉ weekdayNames) : days_map s = none := by
  unfold days_map
  split
  all_goals first
    | rfl
    | (exfalso; apply hs; simp_all [weekdayNames])

/-- A string outside the seven weekday names has no index in the list. -/
lemma indexFrom_none (s : String) (hs : s ∉ weekdayNames) :
    ∀ i : Nat, indexFrom weekdayNames s i = none := by
  intro i
  simp only [weekdayNames] at hs ⊢
  simp only [List.mem_cons, List.not_mem_nil, or_false, not_or] at hs
  obtain ⟨h1, h2, h3, h4, h5, h6, h7⟩ := hs
  simp only [indexFrom]
  split_ifs <;> simp_all

/-- A sample entry labeled "Monday". -/
def mondayEntry : WorkoutEntry :=
  { day := some "Monday", title := "Easy Run", workout_type := "easy_run",
    duration_minutes := some 40, intensity := "moderate" }

/-- C3: a single-week plan is anchored at the Monday of the anchor's
week: every entry is scheduled at that Monday plus its weekday offset
(an offset in 0..6, so the plan occupies one Monday-Sunday span), the
normalized date is a Monday on or before the anchor, and with the
Wednesday anchor (day 2 of the Monday-based epoch) a "Monday" entry
lands on day 0, the Monday before that Wednesday. -/
theorem C3_week_plan_normalized_to_monday :
    (∀ (anchor : Int) (ws : List WorkoutEntry),
      pin_week_schedule anchor ws
        = ws.map (fun w => (mondayOf anchor + (dayOffsetWeek w.day : Int), w)))
    ∧ (∀ d : Option String, (0 : Int) ≤ (dayOffsetWeek d : Int)
        ∧ (dayOffsetWeek d : Int) ≤ 6)
    ∧ (∀ anchor : Int, pyWeekday (mondayOf anchor) = 0 ∧ mondayOf anchor ≤ anchor)
    ∧ weekdayNames.map (fun s => dayOffsetWeek (some s)) = [0, 1, 2, 3, 4, 5, 6]
    ∧ (pin_week_schedule 2 [mondayEntry]).map Prod.fst = [0]
    ∧ pyWeekday 2 = 2 ∧ pyWeekday 0 = 0 ∧ (0 : Int) < 2 := by
  refine ⟨?_, ?_, ?_, by decide, by decide, by decide, by decide, by decide⟩
  · intro anchor ws
    simp only [pin_week_schedule, mondayOf_idem]
  · intro d
    have := dayOffsetWeek_le d
    omega
  · intro anchor
    have h := mondayOf_spec anchor
    exact ⟨h.1, h.2.1⟩

/-- C10: a day entry whose label is not one of the seven recognized
weekday names (or whose label is absent) is not rejected; its offset
defaults to 0, scheduling it on the Monday of its week, in both the
single-week branch (`days_map.get(day_name, 0)`) and the multi-week
branch (`list.index` with `ValueError` handled to 0).  Both
materializers are total functions, so no plan is rejected. -/
theorem C10_unrecognized_label_defaults_to_week_start :
    ∀ lbl : String, lbl ∉ weekdayNames →
      dayOffsetWeek (some lbl) = 0
      ∧ dayOffsetMonth (some lbl) = 0
      ∧ dayOffsetWeek none = 0
      ∧ dayOffsetMonth none = 0
      ∧ (∀ (anchor : Int) (t ty i : String) (dur : Option Nat),
          pin_week_schedule anchor [⟨some lbl, t, ty, dur, i⟩]
              = [(mondayOf anchor, ⟨some lbl, t, ty, dur, i⟩)]
          ∧ pin_month_schedule anchor [[⟨some lbl, t, ty, dur, i⟩]]
              = [(mondayOf anchor, ⟨some lbl, t, ty, dur, i⟩)]) := by
  intro lbl hlbl
  have hweek : dayOffsetWeek (some lbl) = 0 := by
    simp [dayOffsetWeek, days_map_none lbl hlbl]
  have hmonth : dayOffsetMonth (some lbl) = 0 := by
    simp [dayOffsetMonth, indexFrom_none lbl hlbl]
  refine ⟨hweek, hmonth, by decide, by decide, ?_⟩
  intro anchor t ty i dur
  constructor
  · simp [pin_week_schedule, mondayOf_idem, hweek]
  · simp [pin_month_schedule, hmonth]

/-- Closed witness for C10 at the unrecognized label "Funday" and a
Wednesday anchor. -/
theorem C10_unrecognized_label_witness :
    "Funday" ∉ weekdayNames
    ∧ dayOffsetWeek (some "Funday") = 0
    ∧ pin_week_schedule 2 [⟨some "Funday", "X", "other", none, "low"⟩]
        = [(0, ⟨some "Funday", "X", "other", none, "low"⟩)] := by
  have h : "Funday" ∉ weekdayNames := by decide
  have := C10_unrecognized_label_defaults_to_week_start "Funday" h
  refine ⟨h, this.1, ?_⟩
  have h5 := (this.2.2.2.2 2 "X" "other" "low" none).1
  simpa using h5

/-! ### The task store (src/database/db.py) -/

/-- A row of the `workout_plans` table, with the fields the claims
touch (`DatabaseManager.save_workout_plan`, db.py lines 594-621). -/
structure WorkoutPlanRow where
  id : Nat
  plan_type : String
  start_date : Int
  end_date : Int
  is_active : Bool
  total_workouts : Nat
  completed_workouts : Nat
deriving DecidableEq, Repr

/-- A row of the `scheduled_workouts` table (models.py lines 187-221),
restricted to the fields the verified operations read or write. -/
structure ScheduledWorkoutRow where
  id : Nat
  plan_id : Nat
  scheduled_date : Int
  workout_type : String
  title : String
  duration_minutes : Option Nat
  intensity : String
  is_completed : Bool
  completed_at : Option Nat
  actual_duration_minutes : Option Nat
  actual_calories : Option Nat
  linked_activity_id : Option String
  notes : Option String
deriving DecidableEq, Repr

/-- The visible database state: the two relations plus the
autoincrement counters.  Each operation below commits its own
transaction (`session.commit()` inside each `DatabaseManager` method),
so every intermediate `Store` value is a visible state. -/
structure Store where
  plans : List WorkoutPlanRow
  workouts : List ScheduledWorkoutRow
  next_plan_id : Nat
  next_workout_id : Nat
deriving DecidableEq, Repr

/-- `DatabaseManager.save_workout_plan` (db.py 594-621): inserts the
plan row with `is_active=True`, `total_workouts=0`,
`completed_workouts=0` and commits; returns the new id. -/
def save_workout_plan (s : Store) (plan_type : String) (start_date end_date : Int) :
    Store × Nat :=
  let pid := s.next_plan_id
  let row : WorkoutPlanRow :=
    { id := pid, plan_type := plan_type, start_date := start_date,
      end_date := end_date, is_active := true, total_workouts := 0,
      completed_workouts := 0 }
  ({ s with plans := s.plans ++ [row], next_plan_id := pid + 1 }, pid)

/-- `DatabaseManager.save_scheduled_workout` (db.py 666-702): inserts
the task row with `is_completed=False`, increments the owning
plan's `total_workouts` when the plan exists, and commits. -/
def save_scheduled_workout (s : Store) (plan_id : Nat) (scheduled_date : Int)
    (w : WorkoutEntry) : Store × Nat :=
  let wid := s.next_workout_id
  let row : ScheduledWorkoutRow :=
    { id := wid, plan_id := plan_id, scheduled_date := scheduled_date,
      workout_type := w.workout_type, title := w.title,
      duration_minutes := w.duration_minutes, intensity := w.intensity,
      is_completed := false, completed_at := none,
      actual_duration_minutes := none, actual_calories := none,
      linked_activity_id := none, notes := none }
  let bump : WorkoutPlanRow -> WorkoutPlanRow := fun p =>
    if p.id = plan_id then { p with total_workouts := p.total_workouts + 1 } else p
  ({ s with workouts := s.workouts ++ [row], plans := s.plans.map bump,
            next_workout_id := wid + 1 }, wid)

/-- The `actual_data` dict passed to `DatabaseManager.complete_workout`
by the manual-completion route (workouts.py lines 113-133). -/
structure ActualData where
  duration_minutes : Option Nat
  calories : Option Nat
  activity_id : Option String
  notes : Option String
deriving DecidableEq, Repr

/-- `DatabaseManager.complete_workout` (db.py 446-465), the manual
completion path: looks the task up by id; if absent returns `False`;
otherwise unconditionally sets the completion fields from
`actual_data`, increments the owning plan's `completed_workouts`, and
returns `True`.  There is no check of the previous `is_completed`
flag. -/
def complete_workout (s : Store) (workout_id : Nat) (actual : ActualData) (now : Nat) :
    Store × Bool :=
  match s.workouts.find? (fun w => w.id = workout_id) with
  | none => (s, false)
  | some w =>
      let overwrite : ScheduledWorkoutRow -> ScheduledWorkoutRow := fun t =>
        if t.id = workout_id then
          { t with is_completed := true, completed_at := some now,
                   actual_duration_minutes := actual.duration_minutes,
                   actual_calories := actual.calories,
                   linked_activity_id := actual.activity_id,
                   notes := actual.notes }
        else t
      let bump : WorkoutPlanRow -> WorkoutPlanRow := fun p =>
        if p.id = w.plan_id then
          { p with completed_workouts := p.completed_workouts + 1 }
        else p
      ({ s with workouts := s.workouts.map overwrite,
                plans := s.plans.map bump }, true)

/-- `DatabaseManager.complete_scheduled_workout` (db.py 738-770), the
matcher's completion path: same shape, with the linked activity id and
the activity's reported values; `actual_duration` of 0 is stored as
`None` (the Python code stores `int(actual_duration) if actual_duration
else None`). -/
def complete_scheduled_workout (s : Store) (workout_id : Nat) (activity_id : String)
    (actual_duration : Option Nat) (actual_calories : Option Nat)
    (notes : Option String) (now : Nat) : Store × Bool :=
  match s.workouts.find? (fun w => w.id = workout_id) with
  | none => (s, false)
  | some w =>
      let stored_duration : Option Nat :=
        match actual_duration with
        | none => none
        | some d => if d = 0 then none else some d
      let overwrite : ScheduledWorkoutRow -> ScheduledWorkoutRow := fun t =>
        if t.id = workout_id then
          { t with is_completed := true, completed_at := some now,
                   linked_activity_id := some activity_id,
                   actual_duration_minutes := stored_duration,
                   actual_calories := actual_calories,
                   notes := notes }
        else t
      let bump : WorkoutPlanRow -> WorkoutPlanRow := fun p =>
        if p.id = w.plan_id then
          { p with completed_workouts := p.completed_workouts + 1 }
        else p
      ({ s with workouts := s.workouts.map overwrite,
                plans := s.plans.map bump }, true)

/-- The `completed_workouts` counter of plan `pid` as read back from the
store (0 when the plan is unknown). -/
def planCompletedCount (s : Store) (pid : Nat) : Nat :=
  match s.plans.find? (fun p => p.id = pid) with
  | none => 0
  | some p => p.completed_workouts

/-- The `total_workouts` counter of plan `pid` (0 when unknown). -/
def planTotalCount (s : Store) (pid : Nat) : Nat :=
  match s.plans.find? (fun p => p.id = pid) with
  | none => 0
  | some p => p.total_workouts

/-! ### The completion matcher (src/backend/routers/ai.py, `auto_match_activities`) -/

/-- Character-list prefix test (used to model Python's substring
operator `in`). -/
def startsWithChars : List Char → List Char → Bool
  | [], _ => true
  | _ :: _, [] => false
  | a :: xs, b :: ys => a == b && startsWithChars xs ys

/-- Character-list containment. -/
def containsChars (needle : List Char) : List Char → Bool
  | [] => needle.isEmpty
  | c :: cs => startsWithChars needle (c :: cs) || containsChars needle cs

/-- Python's `needle in hay` on strings. -/
def strContains (hay needle : String) : Bool := containsChars needle.data hay.data

/-- Python's `str.lower()` (over the ASCII alphabet the matcher
compares). -/
def lowerString (s : String) : String := ⟨s.data.map Char.toLower⟩

/-- One recorded Garmin activity as read by the matcher
(ai.py lines 1555-1589): `activityId` already stringified (the code
stores `str(activity.get("activityId"))`), the calendar day parsed from
`startTimeLocal` (`none` when parsing fails, in which case the loop
skips the activity), the `activityType.typeKey`, the duration in
seconds and the calories. -/
structure GarminActivity where
  activityId : String
  startDate : Option Int
  typeKey : String
  duration : Nat
  calories : Option Nat
deriving DecidableEq, Repr

/-- The type-compatibility rules of ai.py lines 1571-1581, on the
lowercased workout type and activity type: running-family workout types
match any activity type containing "running" or "treadmill"; strength
matches "strength" or "hiit"; `rest` never matches (the code
`continue`s on every activity); anything else matches any activity on
that day. -/
def type_matches (workout_type activity_type : String) : Bool :=
  if workout_type = "easy_run" || workout_type = "long_run" || workout_type = "tempo"
      || workout_type = "interval" || workout_type = "recovery" then
    strContains activity_type "running" || strContains activity_type "treadmill"
  else if workout_type = "strength" then
    strContains activity_type "strength" || strContains activity_type "hiit"
  else if workout_type = "rest" then
    false
  else
    true

/-- The per-activity test of the inner loop (lines 1555-1583): skip
unparsable dates, require the exact calendar-day match, then the type
rules. -/
def activity_matches (w : ScheduledWorkoutRow) (a : GarminActivity) : Bool :=
  match a.startDate with
  | none => false
  | some d =>
      if d ≠ w.scheduled_date then false
      else type_matches (lowerString w.workout_type) (lowerString a.typeKey)

/-- First matching activity in the window, in window order (the code
breaks out of the activity loop at the first match). -/
def find_matching_activity (acts : List GarminActivity) (w : ScheduledWorkoutRow) :
    Option GarminActivity :=
  acts.find? (activity_matches w)

/-- The row update performed through
`DatabaseManager.complete_scheduled_workout` when a match is found
(lines 1585-1590 with db.py 738-770): completion flag and timestamp,
linked activity id, actual duration in whole minutes (`None` when the
reported duration is zero, since `0.0` is falsy), calories, and the
notes overwritten with the absent `notes` argument. -/
def complete_from_activity (w : ScheduledWorkoutRow) (a : GarminActivity) (now : Nat) :
    ScheduledWorkoutRow :=
  { w with is_completed := true, completed_at := some now,
           linked_activity_id := some a.activityId,
           actual_duration_minutes :=
             if a.duration = 0 then none else some (a.duration / 60),
           actual_calories := a.calories,
           notes := none }

/-- The per-task body of the matcher loop (lines 1550-1601): completed
tasks are skipped up front; otherwise the first matching activity in
the window completes the task, and the match is reported. -/
def auto_match_step (acts : List GarminActivity) (now : Nat) (w : ScheduledWorkoutRow) :
    ScheduledWorkoutRow × Option String :=
  if w.is_completed then (w, none)
  else
    match find_matching_activity acts w with
    | none => (w, none)
    | some a => (complete_from_activity w a now, some a.activityId)

/-- The matcher run over a plan's scheduled workouts, in order,
returning the updated rows and the list of matches (the `matched`
array).  The activity window is never shrunk: the code keeps no record
of which activities have already been used. -/
def auto_match_run (acts : List GarminActivity) (now : Nat) :
    List ScheduledWorkoutRow → List ScheduledWorkoutRow × List String
  | [] => ([], [])
  | w :: ws =>
      let r := auto_match_step acts now w
      let rec_rest := auto_match_run acts now ws
      (r.1 :: rec_rest.1,
        (match r.2 with | some i => [i] | none => []) ++ rec_rest.2)

/-- One plan's state as touched by a reconcile run: its scheduled rows
and its `completed_workouts` counter, which
`complete_scheduled_workout` increments once per match. -/
structure PlanMatchState where
  tasks : List ScheduledWorkoutRow
  completed_workouts : Nat
deriving DecidableEq, Repr

/-- A full reconcile pass over one plan (`auto_match_activities`,
ai.py 1528-1613). -/
def auto_match_activities (acts : List GarminActivity) (now : Nat)
    (p : PlanMatchState) : PlanMatchState × List String :=
  let r := auto_match_run acts now p.tasks
  ({ tasks := r.1, completed_workouts := p.completed_workouts + r.2.length }, r.2)

/-! ### The adjustment engine (src/backend/routers/workouts.py, `adjust_plan_for_readiness`) -/

/-- An exact fraction, used in place of the Python float
`adjustment_factor`.  Products are taken componentwise, mirroring the
sequence of float multiplications; no normalization is performed.  At
every concrete value proved about below the float and exact results of
`int(duration * factor)` coincide. -/
structure Frac where
  num : Nat
  den : Nat
deriving DecidableEq, Repr

/-- Componentwise product of fractions (`adjustment_factor *= x`). -/
def fracMul (a b : Frac) : Frac := { num := a.num * b.num, den := a.den * b.den }

/-- Python `int(d * f)` for a nonnegative integer `d` and nonnegative
factor `f`: truncation toward zero, which is the floor, computed
exactly as a natural division. -/
def pyIntMul (d : Nat) (f : Frac) : Nat := d * f.num / f.den

/-- The request body of the `/adjust-plan` endpoint
(`PlanAdjustmentRequest`, workouts.py 609-617): `body_battery` is a
required int, sleep score and stress level optional. -/
structure PlanAdjustmentRequest where
  body_battery : Int
  sleep_score : Option Int
  stress_level : Option Int
deriving DecidableEq, Repr

/-- One workout dict of the submitted plan document, with the keys the
adjuster reads and writes (workouts.py 669-692). -/
structure PlanWorkout where
  intensity : String
  duration_minutes : Option Nat
  original_intensity : Option String
  adjustment_note : Option String
  can_intensify : Bool
  duration_adjusted : Bool
deriving DecidableEq, Repr

/-- The factor derivation of workouts.py lines 636-663, transcribed
sequentially: the body-battery branch assigns the factor
(<30 - 0.5 and "needs more recovery"; <50 - 0.75; >70 - 1.1 and "can
push harder"), then a present nonzero sleep score below 50 multiplies
by 0.9 and flags recovery (Python truthiness: a sleep score of 0 is
skipped), then a present stress level above 60 multiplies by 0.85.
Returns (factor, needs_more_recovery, can_push_harder). -/
def readinessAdjustmentFactor (req : PlanAdjustmentRequest) : Frac × Bool × Bool :=
  let base : Frac × Bool × Bool :=
    if req.body_battery < 30 then ({ num := 1, den := 2 }, true, false)
    else if req.body_battery < 50 then ({ num := 3, den := 4 }, false, false)
    else if req.body_battery > 70 then ({ num := 11, den := 10 }, false, true)
    else ({ num := 1, den := 1 }, false, false)
  let afterSleep : Frac × Bool × Bool :=
    match req.sleep_score with
    | none => base
    | some ss =>
        if ss ≠ 0 ∧ ss < 50 then (fracMul base.1 { num := 9, den := 10 }, true, base.2.2)
        else base
  match req.stress_level with
  | none => afterSleep
  | some st =>
      if st ≠ 0 ∧ st > 60 then
        (fracMul afterSleep.1 { num := 17, den := 20 }, afterSleep.2.1, afterSleep.2.2)
      else afterSleep

/-- The per-workout rewrite of workouts.py lines 669-692: when recovery
is needed, a `high`-intensity workout is downgraded to `moderate`, its
original tier recorded, and its duration pre-scaled by 0.8; when the
body is ready, a `moderate` workout is only flagged `can_intensify`;
finally any truthy duration is scaled by the composed factor when that
factor is not 1.0 (`f.num = f.den` is the exact version of the float
comparison `adjustment_factor != 1.0`), with `duration_adjusted`
recorded only when the value changed. -/
def adjust_workout (factor : Frac) (needs_more_recovery can_push_harder : Bool)
    (w : PlanWorkout) : PlanWorkout :=
  let adjusted :=
    if needs_more_recovery && w.intensity = "high" then
      { w with intensity := "moderate", original_intensity := some "high",
               adjustment_note := some "Reduced for recovery",
               duration_minutes :=
                 match w.duration_minutes with
                 | none => none
                 | some d => if d ≠ 0 then some (pyIntMul d { num := 4, den := 5 })
                             else some d }
    else if can_push_harder && w.intensity = "moderate" then
      { w with can_intensify := true }
    else w
  match adjusted.duration_minutes with
  | none => adjusted
  | some d =>
      if d ≠ 0 ∧ factor.num ≠ factor.den then
        let nd := pyIntMul d factor
        { adjusted with duration_minutes := some nd,
                        duration_adjusted := nd ≠ d }
      else adjusted

/-- The full `/adjust-plan` operation over the submitted workouts:
factor derivation followed by the per-workout rewrite applied to every
workout of the document.  The document carries no completion flags;
the endpoint rewrites every workout it is given. -/
def adjust_plan_for_readiness (req : PlanAdjustmentRequest) (workouts : List PlanWorkout) :
    Frac × Bool × List PlanWorkout :=
  let r := readinessAdjustmentFactor req
  (r.1, r.2.1, workouts.map (adjust_workout r.1 r.2.1 r.2.2))

/-! ### Pinning a plan into the store (C5, C9) -/

/-- The week branch of the `/pin-plan` endpoint (ai.py 1178-1345) run
against the store: normalize the anchor to Monday (1208-1210), compute
the end date (1216), commit the plan row (`save_workout_plan`, its own
transaction), compute each entry's date (1278-1295), then commit each
task row in turn (1300-1337, one transaction per task).  There is no
branch that inspects whether the document has zero day entries; with an
empty list the task loop simply does not run and the endpoint returns
success.  Returns the final store, the plan id and the reported count
of scheduled workouts. -/
def pin_workout_plan_week (s : Store) (anchor : Int) (flat_workouts : List WorkoutEntry) :
    Store × Nat × Nat :=
  let start_date := mondayOf anchor
  let end_date := start_date + 6
  let r := save_workout_plan s "week" start_date end_date
  let scheduled := pin_week_schedule anchor flat_workouts
  let final := scheduled.foldl
    (fun st p => (save_scheduled_workout st r.2 p.1 p.2).1) r.1
  (final, r.2, scheduled.length)

/-- The task-persistence loop with a fault injected before the
`failAt`-th task save.  Each `save_scheduled_workout` call commits its
own transaction, so the store returned at the point of failure is
exactly the state other readers observe.  (In the source as committed
every task save in this loop in fact raises a `TypeError`, because
ai.py line 1321 passes keyword arguments `key_focus`,
`estimated_distance_km`, `target_hr_bpm`, `supplementary` and
`optimal_time` that db.py's `save_scheduled_workout` (lines 666-677)
does not accept, so `failAt = 0` is the behavior of every nonempty
pin as written.) -/
def save_tasks_until_failure (pid : Nat) :
    Store → Nat → List (Int × WorkoutEntry) → Store
  | st, _, [] => st
  | st, 0, _ :: _ => st
  | st, Nat.succ k, p :: ps =>
      save_tasks_until_failure pid (save_scheduled_workout st pid p.1 p.2).1 k ps

/-- `/pin-plan` with the persistence layer failing at the `failAt`-th
task save. -/
def pin_week_with_failure (s : Store) (anchor : Int) (flat_workouts : List WorkoutEntry)
    (failAt : Nat) : Store :=
  let start_date := mondayOf anchor
  let r := save_workout_plan s "week" start_date (start_date + 6)
  save_tasks_until_failure r.2 r.1 failAt (pin_week_schedule anchor flat_workouts)

/-- The empty store (fresh autoincrement counters at 1). -/
def emptyStore : Store :=
  { plans := [], workouts := [], next_plan_id := 1, next_workout_id := 1 }

/-- Saving a task never removes or re-keys a plan row. -/
lemma save_scheduled_workout_plans_ids (s : Store) (pid : Nat) (d : Int)
    (w : WorkoutEntry) :
    (save_scheduled_workout s pid d w).1.plans.map (fun p => p.id)
      = s.plans.map (fun p => p.id) := by
  simp only [save_scheduled_workout, List.map_map]
  apply List.map_congr_left
  intro p _
  simp only [Function.comp]
  split_ifs <;> rfl

/-- Saving a task adds exactly one task row. -/
lemma save_scheduled_workout_len (s : Store) (pid : Nat) (d : Int) (w : WorkoutEntry) :
    (save_scheduled_workout s pid d w).1.workouts.length = s.workouts.length + 1 := by
  simp [save_scheduled_workout]

/-- The interrupted task loop keeps every already-committed row: plan
ids are untouched and exactly `min failAt ps.length` task rows were
added. -/
lemma save_tasks_until_failure_spec (pid : Nat) :
    ∀ (ps : List (Int × WorkoutEntry)) (st : Store) (k : Nat),
      (save_tasks_until_failure pid st k ps).plans.map (fun p => p.id)
          = st.plans.map (fun p => p.id)
      ∧ (save_tasks_until_failure pid st k ps).workouts.length
          = st.workouts.length + min k ps.length := by
  intro ps
  induction ps with
  | nil => intro st k; simp [save_tasks_until_failure]
  | cons p ps ih =>
      intro st k
      cases k with
      | zero => simp [save_tasks_until_failure]
      | succ k =>
          have h := ih (save_scheduled_workout st pid p.1 p.2).1 k
          refine ⟨?_, ?_⟩
          · rw [save_tasks_until_failure, h.1, save_scheduled_workout_plans_ids]
          · rw [save_tasks_until_failure, h.2, save_scheduled_workout_len]
            simp only [List.length_cons]
            omega

/-- Amended C5: materialization is not atomic.  The plan row is
committed in its own transaction before any task, and each task in its
own; a persistence failure at the `k`-th of `n` task saves leaves a
state in which the new plan row is visible together with exactly the
first `k` task rows. -/
theorem C5_amended_partial_materialization_visible
    (s : Store) (anchor : Int) (ws : List WorkoutEntry) (k : Nat)
    (h : k ≤ ws.length) :
    (pin_week_with_failure s anchor ws k).plans.map (fun p => p.id)
        = s.plans.map (fun p => p.id) ++ [s.next_plan_id]
    ∧ (pin_week_with_failure s anchor ws k).workouts.length
        = s.workouts.length + k := by
  have hlen : (pin_week_schedule anchor ws).length = ws.length := by
    simp [pin_week_schedule]
  have hmain := save_tasks_until_failure_spec s.next_plan_id
    (pin_week_schedule anchor ws)
    (save_workout_plan s "week" (mondayOf anchor) (mondayOf anchor + 6)).1 k
  have hpid : (save_workout_plan s "week" (mondayOf anchor) (mondayOf anchor + 6)).2
      = s.next_plan_id := rfl
  constructor
  · show (save_tasks_until_failure
        (save_workout_plan s "week" (mondayOf anchor) (mondayOf anchor + 6)).2
        (save_workout_plan s "week" (mondayOf anchor) (mondayOf anchor + 6)).1 k
        (pin_week_schedule anchor ws)).plans.map (fun p => p.id)
      = s.plans.map (fun p => p.id) ++ [s.next_plan_id]
    rw [hpid, hmain.1]
    simp [save_workout_plan]
  · show (save_tasks_until_failure
        (save_workout_plan s "week" (mondayOf anchor) (mondayOf anchor + 6)).2
        (save_workout_plan s "week" (mondayOf anchor) (mondayOf anchor + 6)).1 k
        (pin_week_schedule anchor ws)).workouts.length = s.workouts.length + k
    rw [hpid, hmain.2, hlen]
    have hw : (save_workout_plan s "week" (mondayOf anchor)
        (mondayOf anchor + 6)).1.workouts = s.workouts := rfl
    rw [hw]
    omega

/-- Witness for the amended C5 at a concrete store, anchor, two-entry
document and a failure before the second task save. -/
theorem C5_amended_witness :
    (1 : Nat) ≤ ([mondayEntry, mondayEntry] : List WorkoutEntry).length
    ∧ ((pin_week_with_failure emptyStore 2 [mondayEntry, mondayEntry] 1).plans.map
          (fun p => p.id) = emptyStore.plans.map (fun p => p.id)
            ++ [emptyStore.next_plan_id]
        ∧ (pin_week_with_failure emptyStore 2 [mondayEntry, mondayEntry] 1).workouts.length
            = emptyStore.workouts.length + 1) :=
  ⟨by decide,
    C5_amended_partial_materialization_visible emptyStore
      2 [mondayEntry, mondayEntry] 1 (by decide)⟩

/-- Counterexample to C5 as stated: with the empty store, a Wednesday
anchor and a two-entry document, a failure while persisting the second
task leaves a state in which the Plan row is visible with only one of
its two Scheduled Tasks — neither "all visible together" nor "none
visible". -/
theorem C5_counterexample_partial_plan_visible :
    let bad := pin_week_with_failure emptyStore 2 [mondayEntry, mondayEntry] 1
    bad.plans.length = 1 ∧ bad.workouts.length = 1
      ∧ bad.workouts.length ≠ ([mondayEntry, mondayEntry] : List WorkoutEntry).length
      ∧ ¬ (bad.plans.length = 0 ∧ bad.workouts.length = 0) := by
  decide

/-- Amended C9: a plan document with zero day entries is not rejected
and no `ValidationError` exists on this path: the Plan row is persisted
(with `total_workouts = 0`) and the endpoint reports success with zero
scheduled workouts; the task table is untouched. -/
theorem C9_amended_empty_document_persists_plan (s : Store) (anchor : Int) :
    (pin_workout_plan_week s anchor []).1.plans.length = s.plans.length + 1
    ∧ (pin_workout_plan_week s anchor []).1.workouts = s.workouts
    ∧ (pin_workout_plan_week s anchor []).2.2 = 0 := by
  simp [pin_workout_plan_week, pin_week_schedule, save_workout_plan]

/-- Counterexample to C9 as stated: pinning a zero-entry document into
the empty store persists a Plan row (so persistence does happen and no
failure occurs), contradicting "fails with a ValidationError before any
persistence: no Plan and no Scheduled Tasks are created". -/
theorem C9_counterexample_empty_document_not_rejected :
    let r := pin_workout_plan_week emptyStore 2 []
    r.1.plans.length = 1 ∧ r.1.workouts = [] ∧ r.2.2 = 0
      ∧ (r.1.plans.map (fun p => p.total_workouts) = [0]) := by
  decide

/-! ### Manual completion (C8) -/

/-- Mapping an id-preserving update over the rows commutes with primary
key lookup. -/
lemma find_map_update {α : Type} (idf : α → Nat) (key : Nat) (g : α → α)
    (hg : ∀ x, idf (g x) = idf x) :
    ∀ l : List α,
      (l.map (fun x => if idf x = key then g x else x)).find? (fun x => idf x = key)
        = (l.find? (fun x => idf x = key)).map g := by
  intro l
  induction l with
  | nil => simp
  | cons a l ih =>
      by_cases h : idf a = key
      · simp only [List.map_cons, if_pos h]
        rw [List.find?_cons_of_pos _ (by simp [hg, h]),
          List.find?_cons_of_pos _ (by simp [h])]
        simp
      · simp only [List.map_cons, if_neg h]
        rw [List.find?_cons_of_neg _ (by simp [h]),
          List.find?_cons_of_neg _ (by simp [h])]
        exact ih

/-- The row written by `complete_workout` for task `w`. -/
def completedRow (w : ScheduledWorkoutRow) (actual : ActualData) (now : Nat) :
    ScheduledWorkoutRow :=
  { w with is_completed := true, completed_at := some now,
           actual_duration_minutes := actual.duration_minutes,
           actual_calories := actual.calories,
           linked_activity_id := actual.activity_id,
           notes := actual.notes }

/-- Amended C8: manual completion is not an idempotent no-op.  Whenever
the task id resolves — regardless of whether the task is already
complete — `complete_workout` reports success, overwrites the task's
completion fields with the newly supplied actuals and timestamp, and
increments the owning plan's `completed-task-count` by one; only an
unknown id leaves the store untouched (and reports failure, which the
route maps to NotFound).  Repeated completions therefore increment the
counter each time and can drive it above `total-task-count`. -/
theorem C8_amended_recompletion_increments_and_overwrites
    (s : Store) (wid : Nat) (actual : ActualData) (now : Nat)
    (w : ScheduledWorkoutRow) (p : WorkoutPlanRow)
    (hw : s.workouts.find? (fun t => t.id = wid) = some w)
    (hp : s.plans.find? (fun q => q.id = w.plan_id) = some p) :
    (complete_workout s wid actual now).2 = true
    ∧ (complete_workout s wid actual now).1.workouts.find? (fun t => t.id = wid)
        = some (completedRow w actual now)
    ∧ (complete_workout s wid actual now).1.plans.find? (fun q => q.id = w.plan_id)
        = some { p with completed_workouts := p.completed_workouts + 1 } := by
  simp only [complete_workout, hw]
  refine ⟨trivial, ?_, ?_⟩
  · have := find_map_update (fun t : ScheduledWorkoutRow => t.id) wid
      (fun t => completedRow t actual now) (fun t => rfl) s.workouts
    simp only [completedRow] at this ⊢
    rw [this, hw]
    rfl
  · have := find_map_update (fun q : WorkoutPlanRow => q.id) w.plan_id
      (fun q => { q with completed_workouts := q.completed_workouts + 1 })
      (fun q => rfl) s.plans
    rw [this, hp]
    rfl

/-- A one-task plan row that already counts one completion. -/
def planRowDone : WorkoutPlanRow :=
  { id := 1, plan_type := "week", start_date := 0, end_date := 6,
    is_active := true, total_workouts := 1, completed_workouts := 1 }

/-- A scheduled task already completed at time 5 with 42 minutes,
linked to activity "A9". -/
def taskRowDone : ScheduledWorkoutRow :=
  { id := 1, plan_id := 1, scheduled_date := 0,
    workout_type := "easy_run", title := "Easy Run", duration_minutes := some 40,
    intensity := "moderate", is_completed := true, completed_at := some 5,
    actual_duration_minutes := some 42, actual_calories := some 300,
    linked_activity_id := some "A9", notes := some "felt good" }

/-- A one-task, one-plan store in which the task is already complete. -/
def storeOneDone : Store :=
  { plans := [planRowDone], workouts := [taskRowDone],
    next_plan_id := 2, next_workout_id := 2 }

/-- The second set of manually reported actuals used below. -/
def actualsSecond : ActualData :=
  { duration_minutes := some 50, calories := none, activity_id := none,
    notes := none }

/-- Witness for the amended C8: re-completing the already-complete task
of `storeOneDone` succeeds, overwrites its fields and bumps the counter
to 2. -/
theorem C8_amended_witness :
    (complete_workout storeOneDone 1 actualsSecond 9).2 = true
    ∧ (complete_workout storeOneDone 1 actualsSecond 9).1.workouts.find?
        (fun t => t.id = 1) = some (completedRow taskRowDone actualsSecond 9)
    ∧ (complete_workout storeOneDone 1 actualsSecond 9).1.plans.find?
        (fun q => q.id = 1)
        = some { planRowDone with completed_workouts := planRowDone.completed_workouts + 1 } :=
  C8_amended_recompletion_increments_and_overwrites storeOneDone 1
    actualsSecond 9 taskRowDone planRowDone (by decide) (by decide)

/-- A fresh one-task plan row: total 1, nothing completed yet. -/
def planRowFresh : WorkoutPlanRow :=
  { id := 1, plan_type := "week", start_date := 0, end_date := 6,
    is_active := true, total_workouts := 1, completed_workouts := 0 }

/-- The fresh incomplete task of that plan. -/
def taskRowFresh : ScheduledWorkoutRow :=
  { id := 1, plan_id := 1, scheduled_date := 0,
    workout_type := "easy_run", title := "Easy Run", duration_minutes := some 40,
    intensity := "moderate", is_completed := false, completed_at := none,
    actual_duration_minutes := none, actual_calories := none,
    linked_activity_id := none, notes := none }

/-- A fresh one-task, one-plan store. -/
def storeOneFresh : Store :=
  { plans := [planRowFresh], workouts := [taskRowFresh],
    next_plan_id := 2, next_workout_id := 2 }

/-- The first set of manually reported actuals used below. -/
def actualsFirst : ActualData :=
  { duration_minutes := some 42, calories := none, activity_id := none,
    notes := none }

/-- Counterexample to C8 as stated: completing the same task twice
(first at time 5, again at time 9 with different actuals) is not a
no-op — the stored completion timestamp and actual duration change, and
the plan's completed-task-count is incremented again, reaching 2 on a
plan whose total-task-count is 1. -/
theorem C8_counterexample_double_completion_double_counts :
    let s1 := (complete_workout storeOneFresh 1 actualsFirst 5).1
    let s2 := (complete_workout s1 1 actualsSecond 9).1
    planCompletedCount s2 1 = 2
    ∧ planTotalCount s2 1 = 1
    ∧ ¬ planCompletedCount s2 1 ≤ planTotalCount s2 1
    ∧ s1.workouts.map (fun t => (t.completed_at, t.actual_duration_minutes))
        = [(some 5, some 42)]
    ∧ s2.workouts.map (fun t => (t.completed_at, t.actual_duration_minutes))
        = [(some 9, some 50)] := by
  decide

/-! ### Matcher properties (C6, C7) -/

/-- Applying the per-task step to its own output is a no-op with no new
match: a completed task is skipped up front, and a task left incomplete
found no matching activity, a fact unchanged by the first pass since
matching reads only the scheduled date and type. -/
lemma auto_match_step_idem (acts : List GarminActivity) (now : Nat)
    (w : ScheduledWorkoutRow) :
    auto_match_step acts now (auto_match_step acts now w).1
      = ((auto_match_step acts now w).1, none) := by
  by_cases hc : w.is_completed
  · simp [auto_match_step, hc]
  · cases hm : find_matching_activity acts w with
    | none => simp [auto_match_step, hc, hm]
    | some a => simp [auto_match_step, hc, hm, complete_from_activity]

/-- A second pass over already-processed rows changes nothing and
reports no matches. -/
lemma auto_match_run_idem (acts : List GarminActivity) (now : Nat) :
    ∀ ws : List ScheduledWorkoutRow,
      auto_match_run acts now (auto_match_run acts now ws).1
        = ((auto_match_run acts now ws).1, []) := by
  intro ws
  induction ws with
  | nil => simp [auto_match_run]
  | cons w ws ih =>
      simp only [auto_match_run]
      rw [auto_match_step_idem]
      simp only [ih]
      simp

/-- C7: reconciliation is idempotent.  Running `auto_match_activities`
a second time on the state produced by a first run, with the same
activity window, returns that state unchanged — the cumulative
matched-task set is the same, no additional completions happen, and the
plan's `completed_workouts` counter is not incremented again — because
tasks completed by the first run are excluded up front
(`if workout.is_completed: continue`) and tasks left incomplete still
have no matching activity. -/
theorem C7_reconcile_idempotent (acts : List GarminActivity) (now : Nat)
    (p : PlanMatchState) :
    auto_match_activities acts now (auto_match_activities acts now p).1
      = ((auto_match_activities acts now p).1, []) := by
  simp only [auto_match_activities]
  rw [auto_match_run_idem]
  simp

/-- C6 amended: within one reconcile run each incomplete task is matched
independently against the full activity window (first match in window
order per task); no record of used activities is kept, so a matched
activity stays available and can be linked to further tasks of the same
run. -/
theorem C6_amended_tasks_matched_independently (acts : List GarminActivity)
    (now : Nat) (ws : List ScheduledWorkoutRow) :
    (auto_match_run acts now ws).1 = ws.map (fun w => (auto_match_step acts now w).1)
    ∧ (auto_match_run acts now ws).2
        = ws.filterMap (fun w => (auto_match_step acts now w).2) := by
  induction ws with
  | nil => simp [auto_match_run]
  | cons w ws ih =>
      simp only [auto_match_run, List.map_cons, List.filterMap_cons, ih.1, ih.2]
      refine ⟨trivial, ?_⟩
      cases h : (auto_match_step acts now w).2 <;> simp

/-- The single running activity of the counterexample window. -/
def runActivity : GarminActivity :=
  { activityId := "A1", startDate := some 0, typeKey := "running",
    duration := 3600, calories := some 500 }

/-- Two incomplete generic tasks scheduled on the activity's day. -/
def genericTask (n : Nat) : ScheduledWorkoutRow :=
  { id := n, plan_id := 1, scheduled_date := 0, workout_type := "other",
    title := "Session", duration_minutes := some 30, intensity := "moderate",
    is_completed := false, completed_at := none, actual_duration_minutes := none,
    actual_calories := none, linked_activity_id := none, notes := none }

/-- Counterexample to C6 as stated: with a window containing the single
activity "A1" and two incomplete tasks on its date, one reconcile run
links BOTH tasks to "A1" and reports two matches of the same activity —
a matched activity is reused for another task in the same run. -/
theorem C6_counterexample_activity_reused :
    ((auto_match_run [runActivity] 7 [genericTask 1, genericTask 2]).1.map
        (fun t => t.linked_activity_id)) = [some "A1", some "A1"]
    ∧ (auto_match_run [runActivity] 7 [genericTask 1, genericTask 2]).2
        = ["A1", "A1"]
    ∧ ((auto_match_run [runActivity] 7 [genericTask 1, genericTask 2]).1.map
        (fun t => t.is_completed)) = [true, true] := by
  decide

/-! ### Adjuster properties (C4) -/

/-- The body-battery rule factor in isolation. -/
def bbRuleFrac (bb : Int) : Frac :=
  if bb < 30 then { num := 1, den := 2 }
  else if bb < 50 then { num := 3, den := 4 }
  else if bb > 70 then { num := 11, den := 10 }
  else { num := 1, den := 1 }

/-- The sleep rule factor in isolation (Python truthiness: a sleep
score of 0 never triggers it). -/
def sleepRuleFrac : Option Int → Frac
  | none => { num := 1, den := 1 }
  | some ss => if ss ≠ 0 ∧ ss < 50 then { num := 9, den := 10 } else { num := 1, den := 1 }

/-- The stress rule factor in isolation. -/
def stressRuleFrac : Option Int → Frac
  | none => { num := 1, den := 1 }
  | some st => if st ≠ 0 ∧ st > 60 then { num := 17, den := 20 } else { num := 1, den := 1 }

/-- The two incomplete tasks of the spec's adjustment scenario: a
high-intensity 60-minute session and a low-intensity 30-minute one. -/
def scenarioWorkouts : List PlanWorkout :=
  [{ intensity := "high", duration_minutes := some 60, original_intensity := none,
     adjustment_note := none, can_intensify := false, duration_adjusted := false },
   { intensity := "low", duration_minutes := some 30, original_intensity := none,
     adjustment_note := none, can_intensify := false, duration_adjusted := false }]

/-- The request of the scenario: body battery 40, sleep quality 30,
no stress reading. -/
def scenarioRequest : PlanAdjustmentRequest :=
  { body_battery := 40, sleep_score := some 30, stress_level := none }

/-- Amended C4: the `/adjust-plan` readiness adjuster composes its load
factor multiplicatively from the three independent rules — body battery
(<30: 0.5, also flagging recovery; <50: 0.75; >70: 1.1), present
nonzero sleep quality <50: 0.9 (flagging recovery), present nonzero
stress >60: 0.85 — and the recovery flag is raised exactly by the first
and fourth of those rules.  Every workout of the submitted document is
rewritten: a high-intensity workout is downgraded to moderate when
recovery is flagged, with its duration pre-scaled by 0.8, and every
nonzero duration is then scaled by the composed factor with truncation.
At the scenario's inputs (body battery 40, sleep 30, tasks high/60 and
low/30) the composed factor is 3/4 × 9/10 = 0.675, the high task
becomes moderate with duration int(int(60·0.8)·0.675) = 32, and the low
task keeps its tier with duration int(30·0.675) = 20. -/
theorem C4_amended_factor_composition :
    (∀ req : PlanAdjustmentRequest,
      (readinessAdjustmentFactor req).1
          = fracMul (fracMul (bbRuleFrac req.body_battery)
              (sleepRuleFrac req.sleep_score)) (stressRuleFrac req.stress_level)
      ∧ ((readinessAdjustmentFactor req).2.1 = true
          ↔ (req.body_battery < 30
              ∨ ∃ ss, req.sleep_score = some ss ∧ ss ≠ 0 ∧ ss < 50)))
    ∧ adjust_plan_for_readiness scenarioRequest scenarioWorkouts
        = ({ num := 27, den := 40 }, true,
           [{ intensity := "moderate", duration_minutes := some 32,
              original_intensity := some "high",
              adjustment_note := some "Reduced for recovery",
              can_intensify := false, duration_adjusted := true },
            { intensity := "low", duration_minutes := some 20,
              original_intensity := none, adjustment_note := none,
              can_intensify := false, duration_adjusted := true }]) := by
  constructor
  · intro req
    rcases req with ⟨bb, ss, st⟩
    rcases ss with _ | ss <;> rcases st with _ | st <;>
      simp only [readinessAdjustmentFactor, bbRuleFrac, sleepRuleFrac,
        stressRuleFrac, fracMul] <;>
      split_ifs <;>
      simp_all
  · decide

/-- Counterexample to C4 as stated: at the claim's own scenario (body
battery 40 as the readiness signal, sleep quality 30, tasks high/60 and
low/30) the code's composed factor is 0.675 — not 0.7×0.9 = 0.63 — the
high task's duration becomes 32 — not 38 — and the low task's duration
becomes 20 — not 19. -/
theorem C4_counterexample_scenario_values :
    let r := adjust_plan_for_readiness scenarioRequest scenarioWorkouts
    r.1 = { num := 27, den := 40 }
    ∧ r.2.2.map (fun w => w.duration_minutes) = [some 32, some 20]
    ∧ r.2.2.map (fun w => w.intensity) = ["moderate", "low"]
    ∧ ¬ r.1.num * 100 = 63 * r.1.den
    ∧ r.2.2.map (fun w => w.duration_minutes) ≠ [some 38, some 19] := by
  decide
